import Mathlib

/-!
Verification of the Drive Icon Setter repository (Windows-ChangeDisk).

This file gives a shallow embedding, in Lean, of the parts of the Python
source that the specification's testable properties talk about:

* the file-safety classifier `is_safe_to_hide` together with its
  `SYSTEM_FILES` deny-list and `ICON_FILES` allow-list
  (Windows/Python/DriveIconSetter.py, lines 144-202);
* the registry-backed persistent icon store `reg_set_icon` /
  `reg_get_icon` / `reg_remove_icon` in its dual-hive form
  (Windows/Python/Windows.py lines 142-179, identical code in
  Windows/Python/DriveIconSetter.py lines 469-506);
* the eject fallback chains `safe_eject` of Windows/Python/Windows.py
  (lines 275-314) and of drive_icon_setter.py (lines 198-221);
* the durable-state effects of the apply pipelines
  `universal_icon_pipeline` (DriveIconSetter.py lines 852-1027) and
  `apply_icon_pipeline` (drive_icon_setter.py lines 224-327), and the
  sequence of step numbers that `universal_icon_pipeline` emits through
  its status callback.

Filesystem contents are modelled as maps from names to file contents,
the registry as per-hive partial maps from drive letters to string
values, and the fallible OS primitives (registry writes and reads,
device handles, IOCTLs, PowerShell invocations, image decoding) as
boolean outcome parameters, so each pipeline becomes a pure function of
its pre-state and of those outcomes.
-/

namespace DriveIcon

/-! ### String helpers modelling the Python `str` operations used -/

/-- ASCII lower-casing of one character, as `str.lower` acts on the
ASCII strings that occur in the source. -/
def lowerChar (c : Char) : Char :=
  if 'A' ≤ c ∧ c ≤ 'Z' then Char.ofNat (c.toNat + 32) else c

/-- Model of Python `str.lower()` (ASCII range). -/
def lowerStr (s : String) : String :=
  String.mk (s.data.map lowerChar)

/-- Bool-valued containment of `pat` in `s`, modelling Python's
`pat in s` substring test. -/
def containsChars : List Char → List Char → Bool
  | pat, [] => pat.isEmpty
  | pat, c :: t => List.isPrefixOf pat (c :: t) || containsChars pat t

/-- Model of Python's `pat in s` on strings. -/
def containsStr (pat s : String) : Bool :=
  containsChars pat.data s.data

/-- Model of Python's `s.startswith(p)`. -/
def strStarts (p s : String) : Bool :=
  List.isPrefixOf p.data s.data

/-- Model of Python's `s.endswith(p)`. -/
def strEnds (p s : String) : Bool :=
  List.isSuffixOf p.data s.data

/-- Model of `os.path.basename`: the part of the path after the last
path separator (backslash or slash). -/
def pyBasename (s : String) : String :=
  String.mk (s.data.foldl (fun acc c => if c = '\\' ∨ c = '/' then [] else acc ++ [c]) [])

/-- Model of Python's `s.lstrip(".")`: drop all leading dots. -/
def lstripDot (s : String) : String :=
  String.mk (s.data.dropWhile (· = '.'))

/-- Model of Python's `s.strip()` on the ASCII labels the GUI passes:
drop leading and trailing whitespace. -/
def stripWs (s : String) : String :=
  String.mk (((s.data.dropWhile Char.isWhitespace).reverse.dropWhile Char.isWhitespace).reverse)

/-! ### The file-safety classifier (DriveIconSetter.py lines 144-202) -/

/-- The `SYSTEM_FILES` deny-list: system files that must never be
hidden or modified (DriveIconSetter.py lines 145-160). -/
def SYSTEM_FILES : List String :=
  ["$RECYCLE.BIN", "System Volume Information", "boot.ini", "pagefile.sys",
   "hiberfil.sys", "swapfile.sys", "bootmgr", "BOOTNXT", "RECOVERY",
   "Windows", "WinNT", "Program Files", "Program Files (x86)", "ProgramData"]

/-- The `ICON_FILES` allow-list: icon files that are safe to hide
(DriveIconSetter.py lines 163-173). -/
def ICON_FILES : List String :=
  ["desktop.ini", "autorun.inf", ".directory", ".VolumeIcon.icns",
   "VolumeIcon.icns", ".DS_Store", ".fseventsd", ".metadata_never_index", ".icons"]

/-- Model of `is_safe_to_hide(filepath)` (DriveIconSetter.py lines
175-202).  The Python code calls `os.path.isdir(filepath)`; that
filesystem query is the explicit parameter `isDir`.  The checks run in
source order: the deny-list substring scan over the lower-cased
basename and over the lower-cased full path, the directory guard, the
allow-list name comparison (exact name or the name with one leading dot
prepended after stripping dots), and finally the `.png` clause. -/
def is_safe_to_hide (filepath : String) (isDir : Bool) : Bool :=
  if SYSTEM_FILES.any (fun sf =>
      containsStr (lowerStr sf) (lowerStr (pyBasename filepath)) ||
      containsStr (lowerStr sf) (lowerStr filepath)) then
    false
  else if isDir &&
      !(lowerStr (pyBasename filepath) == ".icons" ||
        lowerStr (pyBasename filepath) == ".fseventsd") &&
      !(strStarts "." (lowerStr (pyBasename filepath))) then
    false
  else if ICON_FILES.any (fun ic =>
      lowerStr (pyBasename filepath) == lowerStr ic ||
      lowerStr (pyBasename filepath) == "." ++ lstripDot (lowerStr ic)) then
    true
  else if ICON_FILES.any (fun ic =>
      containsStr (lowerStr ic) (lowerStr (pyBasename filepath)) &&
      strEnds ".png" (lowerStr (pyBasename filepath))) then
    true
  else
    false

/-- The deny-list test on the full path alone: some `SYSTEM_FILES`
entry occurs (case-insensitively) as a substring of the path.  A path
that names a deny-listed object or any child of one satisfies this. -/
def denyFullPath (filepath : String) : Bool :=
  SYSTEM_FILES.any (fun sf => containsStr (lowerStr sf) (lowerStr filepath))

/-- The names for which the third and fourth branches of
`is_safe_to_hide` can answer `true`: an allow-list name (possibly with
a leading dot prepended), or a `.png` name containing an allow-list
entry as a substring. -/
def allowRecognized (fname : String) : Bool :=
  ICON_FILES.any (fun ic =>
    fname == lowerStr ic ||
    (fname == "." ++ lstripDot (lowerStr ic) ||
     (containsStr (lowerStr ic) fname && strEnds ".png" fname)))

/-! ### The registry-backed persistent icon store (Windows.py lines 142-179)

The registry is modelled per hive as a partial map from the normalized
drive letter to the stored string value, one map for the `DefaultIcon`
value and one for `DefaultLabel`.  Whether a `CreateKeyEx`/`SetValueEx`
or `OpenKey`/`QueryValueEx` call succeeds in a hive is modelled by one
writability and one readability flag per hive (in the source a
permission failure raises inside the per-hive `try` block that wraps
both value writes). -/

structure RegState where
  hklmIcon : Char → Option String
  hklmLabel : Char → Option String
  hkcuIcon : Char → Option String
  hkcuLabel : Char → Option String
  hklmWritable : Bool
  hkcuWritable : Bool
  hklmReadable : Bool
  hkcuReadable : Bool

/-- Point update of a letter-keyed map. -/
def updMap (f : Char → Option String) (k : Char) (v : String) : Char → Option String :=
  fun x => if x = k then some v else f x

/-- Point deletion in a letter-keyed map. -/
def delMap (f : Char → Option String) (k : Char) : Char → Option String :=
  fun x => if x = k then none else f x

/-- The writes `reg_set_icon` performs in the machine-wide hive: the
`DefaultIcon` value, and the `DefaultLabel` value when the stripped
label is non-empty (Windows.py lines 146-154, first loop iteration). -/
def writeHKLM (st : RegState) (l : Char) (ico lab : String) : RegState :=
  { st with
    hklmIcon := updMap st.hklmIcon l ico,
    hklmLabel := if stripWs lab = "" then st.hklmLabel else updMap st.hklmLabel l (stripWs lab) }

/-- The same writes in the current-user hive (second loop iteration). -/
def writeHKCU (st : RegState) (l : Char) (ico lab : String) : RegState :=
  { st with
    hkcuIcon := updMap st.hkcuIcon l ico,
    hkcuLabel := if stripWs lab = "" then st.hkcuLabel else updMap st.hkcuLabel l (stripWs lab) }

/-- Model of `reg_set_icon(drive, ico_path, label)` (Windows.py lines
142-158, identically DriveIconSetter.py lines 469-485).  The source
iterates over `[HKEY_LOCAL_MACHINE, HKEY_CURRENT_USER]`; an exception
in a hive reaches `except Exception` and raises
`PermissionError("Registry write failed ...")` only when that hive is
`HKEY_LOCAL_MACHINE` — a failure in the current-user hive falls off the
`except` block silently. -/
def reg_set_icon (st : RegState) (l : Char) (ico lab : String) : Except String RegState :=
  if st.hklmWritable then
    if (writeHKLM st l ico lab).hkcuWritable then
      Except.ok (writeHKCU (writeHKLM st l ico lab) l ico lab)
    else Except.ok (writeHKLM st l ico lab)
  else Except.error "Registry write failed: Run as Administrator"

/-- Model of `reg_get_icon(drive)` (Windows.py lines 160-169): try
`HKEY_LOCAL_MACHINE` first, then `HKEY_CURRENT_USER`, returning the
first `DefaultIcon` value found, `none` if neither hive yields one. -/
def reg_get_icon (st : RegState) (l : Char) : Option String :=
  match (if st.hklmReadable then st.hklmIcon l else none) with
  | some v => some v
  | none => if st.hkcuReadable then st.hkcuIcon l else none

/-- Model of `reg_remove_icon(drive)` (Windows.py lines 171-179):
delete `DefaultIcon`, `DefaultLabel` and the letter key in both hives,
each deletion inside its own `try ... except: pass`. -/
def reg_remove_icon (st : RegState) (l : Char) : RegState :=
  let st1 :=
    if st.hklmWritable then
      { st with hklmIcon := delMap st.hklmIcon l, hklmLabel := delMap st.hklmLabel l }
    else st
  if st1.hkcuWritable then
    { st1 with hkcuIcon := delMap st1.hkcuIcon l, hkcuLabel := delMap st1.hkcuLabel l }
  else st1

/-! ### The eject fallback chains -/

/-- The two eject mechanisms: the native
`CreateFileW`/`FSCTL_LOCK`/`FSCTL_DISMOUNT`/`IOCTL_EJECT` sequence, and
the scripted `Shell.Application ... InvokeVerb('Eject')` PowerShell
command. -/
inductive EjectMethod
  | native
  | powershell
deriving DecidableEq

/-- Outcomes of the OS primitives a `safe_eject` call can hit:
whether `CreateFileW` yields a valid handle, whether the final
`IOCTL_EJECT` `DeviceIoControl` reports success, whether the PowerShell
eject command exits 0 and what it prints to stderr, and the value
`GetLastError()` reports after a failed IOCTL. -/
structure EjectEnv where
  handleOpens : Bool
  ioctlEjectOk : Bool
  psExitZero : Bool
  psStderr : String
  lastErr : Nat

/-- Result of an eject call: the `(ok, detail)` pair the Python
function returns, plus the ordered list of mechanisms it attempted. -/
structure EjectResult where
  ok : Bool
  detail : String
  attempts : List EjectMethod
deriving DecidableEq

/-- Model of `safe_eject(drive)` from Windows/Python/Windows.py lines
275-314 (same code in DriveIconSetter.py lines 743-786): if the device
handle cannot be opened, fall back to PowerShell immediately; if the
handle opens and `IOCTL_EJECT` succeeds, report success; otherwise fall
back to PowerShell, and only when that also fails return
`ok = false` with the `Eject failed (code ...)` detail. -/
def safe_eject_win (e : EjectEnv) : EjectResult :=
  if !e.handleOpens then
    { ok := e.psExitZero,
      detail := if e.psExitZero then "Ejected via PowerShell" else e.psStderr,
      attempts := [EjectMethod.native, EjectMethod.powershell] }
  else if e.ioctlEjectOk then
    { ok := true, detail := "Ejected", attempts := [EjectMethod.native] }
  else if e.psExitZero then
    { ok := true, detail := "Ejected via PowerShell fallback",
      attempts := [EjectMethod.native, EjectMethod.powershell] }
  else
    { ok := false,
      detail := "Eject failed (code " ++ Nat.repr e.lastErr ++ ") - please unplug manually.",
      attempts := [EjectMethod.native, EjectMethod.powershell] }

/-- Model of `safe_eject(drive)` from drive_icon_setter.py lines
198-221: the PowerShell fallback runs only when the device handle
cannot be opened; once the handle opens, a failing `IOCTL_EJECT`
returns `(False, "Eject failed (...)")` directly, with no further
attempt. -/
def safe_eject_setter (e : EjectEnv) : EjectResult :=
  if !e.handleOpens then
    { ok := e.psExitZero,
      detail := if e.psExitZero then "Ejected via PowerShell" else e.psStderr,
      attempts := [EjectMethod.native, EjectMethod.powershell] }
  else
    { ok := e.ioctlEjectOk,
      detail := if e.ioctlEjectOk then "Ejected"
                else "Eject failed (" ++ Nat.repr e.lastErr ++ ")",
      attempts := [EjectMethod.native] }

/-- Primary-mechanism failure: the native dismount/lock/eject sequence
did not eject, either because no handle could be opened or because the
eject IOCTL failed. -/
def primaryFails (e : EjectEnv) : Bool :=
  !e.handleOpens || !e.ioctlEjectOk

/-! ### Durable state touched by the apply pipelines

Durable state is what outlives a run: the contents of the permanent
`%ProgramData%\DriveIcons\drive_<L>.ico` asset (`prog`), the files at
the volume root (`rootFiles`, keyed by name relative to the root), the
files inside the hidden `<root>\.icons` folder (`iconsFiles`), whether
that folder exists, and the per-drive registry values.  Shell caches,
Explorer restarts and file attributes are transient or cosmetic and
are outside this state. -/

/-- The permanent icon path `os.path.join(ICO_STORE, f"drive_{letter}.ico")`
with `ICO_STORE = %ProgramData%\DriveIcons` expanded to its standard
value `C:\ProgramData\DriveIcons`. -/
def icoDestPath (letter : Char) : String :=
  "C:\\ProgramData\\DriveIcons\\drive_" ++ String.singleton letter ++ ".ico"

/-- Point update of a name-keyed file map. -/
def updFile (f : String → Option String) (k v : String) : String → Option String :=
  fun n => if n = k then some v else f n

/-- Drop a literal prefix from a character list, or `none` if it is not
a prefix; used to evaluate the glob patterns of the source. -/
def dropPre : List Char → List Char → Option (List Char)
  | [], s => some s
  | _ :: _, [] => none
  | p :: ps, c :: cs => if p = c then dropPre ps cs else none

/-- The glob `drive_icon*.ico` used by `universal_icon_pipeline` step 3:
names starting with `drive_icon` whose remainder ends in `.ico`. -/
def globDriveIcoU (name : String) : Bool :=
  match dropPre "drive_icon".data name.data with
  | some rest => List.isSuffixOf ".ico".data rest
  | none => false

/-- The glob `.VolumeIcon*` used by `universal_icon_pipeline` step 3. -/
def globVolIconU (name : String) : Bool :=
  strStarts ".VolumeIcon" name

/-- Step 3 of `universal_icon_pipeline` on the volume root
(DriveIconSetter.py lines 887-896): for each root name matching one of
the two globs, the file is removed only if `is_safe_to_hide` approves
the full path. -/
def purgeRootU (drive : String) (f : String → Option String) : String → Option String :=
  fun n =>
    if (globDriveIcoU n || globVolIconU n) && is_safe_to_hide (drive ++ n) false then none
    else f n

/-- Step 3 of `universal_icon_pipeline` on the ProgramData asset
(DriveIconSetter.py lines 879-885): `if os.path.exists(ico_dest) and
is_safe_to_hide(ico_dest): os.remove(ico_dest)`. -/
def purgeProgU (letter : Char) (p : Option String) : Option String :=
  if p.isSome && is_safe_to_hide (icoDestPath letter) false then none else p

/-- The fixed `desktop.ini` text written by `create_windows_icons`
(DriveIconSetter.py lines 604-609). -/
def desktopIniContent : String :=
  "[.ShellClassInfo]\r\nIconResource=.icons\\drive_icon.ico,0\r\nIconFile=.icons\\drive_icon.ico\r\nIconIndex=0\r\n"

/-- The `autorun.inf` text written by `create_windows_icons`
(DriveIconSetter.py lines 615-620): icon line pointing at
`.icons\drive_icon.ico`, optional label line. -/
def autorunContentU (label : String) : String :=
  "[autorun]\r\nicon=.icons\\drive_icon.ico" ++
    (if stripWs label = "" then "" else "\r\nlabel=" ++ stripWs label) ++ "\r\n"

/-- The fixed `.directory` text written by `create_linux_icons`
(DriveIconSetter.py lines 664-669). -/
def directoryContent : String :=
  "[Desktop Entry]\nIcon=.icons/.drive_icon.png\nName=Removable Drive\nType=Directory\n"

/-- Abstraction of the PIL resize-and-save of the source image at a
given pixel size: the bitmap bytes are opaque, deterministic in the
source image and the size. -/
def pngOf (size : Nat) (src : String) : String :=
  "png" ++ Nat.repr size ++ ":" ++ src

/-- Abstraction of the 4096 zero bytes `create_macos_icons` writes into
`.DS_Store`. -/
def dsStoreContent : String :=
  "x00*4096"

/-- Durable state of one volume plus the ProgramData asset and the
per-drive registry values, as touched by the pipelines. -/
@[ext]
structure UState where
  prog : Option String
  rootFiles : String → Option String
  iconsFiles : String → Option String
  iconsDirExists : Bool
  hklmIcon : Option String
  hklmLabel : Option String
  hkcuIcon : Option String
  hkcuLabel : Option String

/-- Model of `universal_icon_pipeline(drive, ico_src, label, hide_files,
do_eject, ...)` (DriveIconSetter.py lines 852-1027) restricted to its
durable-state effects, with all OS writes on the success path assumed
to succeed.  Returns `(ok, ejectInvoked, finalState)` where `ok` is the
boolean the pipeline passes to `done_cb` and `ejectInvoked` says
whether `safe_eject` is reached (line 970: `if do_eject and not
is_system_drive(drive)`).

Order of effects: steps 1-2 stop Explorer and clear caches (transient);
step 3 purges old assets (`purgeProgU`, `purgeRootU`); steps 4-5 are
cache and permission housekeeping; step 6 creates the `.icons` folder;
step 7 opens the source image with PIL — `imageReadable` is the outcome
of that call, and when it is `false` the raised exception reaches the
outer `except`, which reports failure via `done_cb(False, ...)` without
running steps 8-14; steps 8-10 write the Windows, Linux and macOS
files and the registry values; step 11 only sets attributes; steps
12-14 are shell refresh and verification.  `dtype` is the
`GetDriveTypeW` result; the pipeline uses it only for the `is_usb`
message text, never to gate the eject.  `hide` only toggles file
attributes, which are not part of durable state. -/
def universal_apply (st : UState) (drive : String) (letter : Char) (label : String)
    (dtype : Nat) (hide do_eject isSystem : Bool)
    (imageReadable : Bool) (src : String) : Bool × Bool × UState :=
  let st3 : UState :=
    { st with prog := purgeProgU letter st.prog, rootFiles := purgeRootU drive st.rootFiles }
  let st6 : UState := { st3 with iconsDirExists := true }
  if imageReadable then
    let st8 : UState :=
      { st6 with
        prog := some src,
        iconsFiles := updFile st6.iconsFiles "drive_icon.ico" src,
        hklmIcon := some (icoDestPath letter),
        hklmLabel := if stripWs label = "" then st6.hklmLabel else some (stripWs label),
        hkcuIcon := some (icoDestPath letter),
        hkcuLabel := if stripWs label = "" then st6.hkcuLabel else some (stripWs label),
        rootFiles :=
          updFile (updFile st6.rootFiles "desktop.ini" desktopIniContent)
            "autorun.inf" (autorunContentU label) }
    let st9 : UState :=
      { st8 with
        iconsFiles :=
          updFile (updFile (updFile (updFile (updFile (updFile st8.iconsFiles
            "drive_icon_256.png" (pngOf 256 src))
            "drive_icon_128.png" (pngOf 128 src))
            "drive_icon_64.png" (pngOf 64 src))
            "drive_icon_32.png" (pngOf 32 src))
            "drive_icon_16.png" (pngOf 16 src))
            "drive_icon.png" (pngOf 256 src),
        rootFiles := updFile st8.rootFiles ".directory" directoryContent }
    let st10 : UState :=
      { st9 with
        iconsFiles := updFile st9.iconsFiles "drive_icon_512.png" (pngOf 512 src),
        rootFiles :=
          updFile (updFile (updFile (updFile (updFile st9.rootFiles
            ".VolumeIcon.icns" (pngOf 512 src))
            "VolumeIcon.icns" (pngOf 512 src))
            ".DS_Store" dsStoreContent)
            ".metadata_never_index" "")
            ".fseventsd\\no_log" "" }
    (true, do_eject && !isSystem, st10)
  else
    (false, false, st6)

/-! ### The drive_icon_setter.py apply pipeline (lines 224-327) -/

/-- Durable state used by `apply_icon_pipeline` of drive_icon_setter.py:
it writes no `.icons` folder and touches only the machine-wide hive
(its `reg_set_icon`, lines 104-117, writes `HKEY_LOCAL_MACHINE` only). -/
@[ext]
structure SState where
  prog : Option String
  rootFiles : String → Option String
  hklmIcon : Option String
  hklmLabel : Option String

/-- The per-run root icon name `f"drive_icon_{ts}.ico"` built from
`ts = int(time.time())` (drive_icon_setter.py lines 254-255). -/
def icoLocalName (ts : Nat) : String :=
  "drive_icon_" ++ Nat.repr ts ++ ".ico"

/-- The cleanup targets of drive_icon_setter.py line 259: every root
name matching the glob `drive_icon_*.ico`, plus the literal
`drive_icon.ico`. -/
def globDriveIcoS (name : String) : Bool :=
  (match dropPre "drive_icon_".data name.data with
   | some rest => List.isSuffixOf ".ico".data rest
   | none => false) || name == "drive_icon.ico"

/-- The old-icon cleanup loop of drive_icon_setter.py lines 259-263. -/
def purgeRootS (f : String → Option String) : String → Option String :=
  fun n => if globDriveIcoS n then none else f n

/-- The `autorun.inf` text drive_icon_setter.py writes (lines 275-279):
`"\n".join(["[autorun]", f"icon={ico_local_name}"] (+ label)) + "\n"`. -/
def autorunContentS (ts : Nat) (label : String) : String :=
  "[autorun]\nicon=" ++ icoLocalName ts ++
    (if stripWs label = "" then "" else "\nlabel=" ++ stripWs label) ++ "\n"

/-- Model of `apply_icon_pipeline(drive, ico_src, label, hide_files,
do_eject, ...)` (drive_icon_setter.py lines 224-327) restricted to its
durable-state effects on the success path.  `ts` is the value of
`int(time.time())` observed by the run.  Returns
`(ok, ejectInvoked, finalState)`; the eject is guarded only by
`if do_eject:` (line 298), with no drive-kind check.

Order of effects: step 1 copies the source icon to the permanent
ProgramData path; step 2 writes the registry (HKLM only in this file);
step 3, skipped on the system drive, deletes the old root icons
matching `drive_icon_*.ico` and `drive_icon.ico`, copies the icon to
the timestamped root name and rewrites `autorun.inf`; steps 4-5 are
shell refresh and the optional eject.  `hide` only toggles the +H+S
attributes of the two root files. -/
def apply_setter (st : SState) (letter : Char) (src label : String)
    (hide do_eject isSystem : Bool) (ts : Nat) : Bool × Bool × SState :=
  let st1 : SState := { st with prog := some src }
  let st2 : SState :=
    { st1 with
      hklmIcon := some (icoDestPath letter),
      hklmLabel := if stripWs label = "" then st1.hklmLabel else some (stripWs label) }
  let root3 : String → Option String :=
    updFile (updFile (purgeRootS st2.rootFiles) (icoLocalName ts) src)
      "autorun.inf" (autorunContentS ts label)
  let st3 : SState :=
    if isSystem then st2 else { st2 with rootFiles := root3 }
  (true, do_eject, st3)

/-! ### The Windows.py apply pipeline (lines 378-514) -/

/-- Step 3 of Windows.py's `apply_icon_pipeline` on the volume root
(lines 409-411): every root name matching the glob `drive_icon*.ico`
is deleted, with no classifier consultation. -/
def purgeRootW (f : String → Option String) : String → Option String :=
  fun n => if globDriveIcoU n then none else f n

/-- Model of `apply_icon_pipeline(drive, ico_src, label, hide_files,
do_eject, ...)` (Windows.py lines 378-514) restricted to its
durable-state effects on the success path.  Returns
`(ok, ejectInvoked, finalState)`; the eject is guarded by
`if do_eject and not is_system_drive(drive)` (line 483).

Order of effects: steps 1-2 stop Explorer and clear caches
(transient); step 3 deletes the existing ProgramData asset and the
root files matching `drive_icon*.ico`; step 4 is a cache call; step 5
creates the `.icons` folder and copies the source icon to the
ProgramData path and to `.icons\drive_icon.ico`; step 6 writes the
dual-hive registry values pointing at the ProgramData path; step 7
writes `desktop.ini` (fixed text, lines 248-267); step 9 writes
`autorun.inf` (fixed text, lines 455-459); steps 8 and 10-11 only set
attributes and refresh the shell.  Every written name and every
written content is fixed — no timestamp enters this pipeline.
`hide_files` is accepted by the source but never consulted. -/
def apply_win (st : UState) (letter : Char) (label : String)
    (hide do_eject isSystem : Bool) (src : String) : Bool × Bool × UState :=
  let st3 : UState := { st with prog := none, rootFiles := purgeRootW st.rootFiles }
  let st5 : UState :=
    { st3 with
      iconsDirExists := true,
      prog := some src,
      iconsFiles := updFile st3.iconsFiles "drive_icon.ico" src }
  let st6 : UState :=
    { st5 with
      hklmIcon := some (icoDestPath letter),
      hklmLabel := if stripWs label = "" then st5.hklmLabel else some (stripWs label),
      hkcuIcon := some (icoDestPath letter),
      hkcuLabel := if stripWs label = "" then st5.hkcuLabel else some (stripWs label) }
  let root9 : String → Option String :=
    updFile (updFile st6.rootFiles "desktop.ini" desktopIniContent)
      "autorun.inf" (autorunContentU label)
  let st9 : UState := { st6 with rootFiles := root9 }
  (true, do_eject && !isSystem, st9)

/-! ### Step numbers emitted by universal_icon_pipeline

On its success path `universal_icon_pipeline` calls
`step(n, 14, msg)` with the numbers collected below, in source order
(DriveIconSetter.py lines 868-966).  Steps 2, 3 and 14 each emit two
messages at the top level; the nested status callbacks passed to the
permission check (step 5), `create_windows_icons` (8),
`create_linux_icons` (9), `create_macos_icons` (10) and
`safe_hide_all_icon_files` (11) emit some number of further messages
carrying that same step number — the parameters `k a b c d` count
them. -/
def universalSteps (k a b c d : Nat) : List Nat :=
  1 :: 2 :: 2 :: 3 :: 3 :: 4 :: 5 :: (List.replicate k 5 ++ 6 :: 7 :: 8 ::
    (List.replicate a 8 ++ 9 :: (List.replicate b 9 ++ 10 ::
      (List.replicate c 10 ++ 11 :: (List.replicate d 11 ++ [12, 13, 14, 14])))))

/-! ### Concrete states used by counterexamples and witnesses -/

/-- The `GetDriveTypeW` constants used by the source
(drive_icon_setter.py line 45). -/
def DRIVE_REMOVABLE : Nat := 2

/-- Windows `DRIVE_FIXED` drive type. -/
def DRIVE_FIXED : Nat := 3

/-- A registry with no stored icons where every hive access succeeds. -/
def regEmpty : RegState :=
  { hklmIcon := fun _ => none, hklmLabel := fun _ => none,
    hkcuIcon := fun _ => none, hkcuLabel := fun _ => none,
    hklmWritable := true, hkcuWritable := true,
    hklmReadable := true, hkcuReadable := true }

/-- A registry where only the current-user hive rejects writes. -/
def regHkcuFails : RegState :=
  { regEmpty with hkcuWritable := false }

/-- A registry where only the machine-wide hive rejects writes. -/
def regHklmFails : RegState :=
  { regEmpty with hklmWritable := false }

/-- A registry where both hives hold an icon entry for every drive. -/
def regBoth : RegState :=
  { regEmpty with
    hklmIcon := fun _ => some "machine.ico",
    hkcuIcon := fun _ => some "user.ico" }

/-- An empty durable state for the universal pipeline. -/
def ust0 : UState :=
  { prog := none, rootFiles := fun _ => none, iconsFiles := fun _ => none,
    iconsDirExists := false, hklmIcon := none, hklmLabel := none,
    hkcuIcon := none, hkcuLabel := none }

/-- A durable state whose volume root already holds a previously staged
macOS icon asset `.VolumeIcon.icns`. -/
def ustVol : UState :=
  { ust0 with rootFiles := fun n => if n = ".VolumeIcon.icns" then some "old" else none }

/-- An empty durable state for the drive_icon_setter.py pipeline. -/
def sst0 : SState :=
  { prog := none, rootFiles := fun _ => none, hklmIcon := none, hklmLabel := none }

/-- An eject environment where the device handle opens, the eject IOCTL
fails, and the PowerShell command would succeed if it were run. -/
def ejStuck : EjectEnv :=
  { handleOpens := true, ioctlEjectOk := false, psExitZero := true,
    psStderr := "", lastErr := 5 }

/-! ### Helper lemmas -/

/-- Substring containment is preserved by extending the searched list on
the right. -/
theorem containsChars_append_right (pat s t : List Char)
    (h : containsChars pat s = true) : containsChars pat (s ++ t) = true := by
  induction s with
  | nil =>
    have hp : pat = [] := by
      cases pat with
      | nil => rfl
      | cons a as => simp [containsChars] at h
    subst hp
    cases t with
    | nil => rfl
    | cons c cs => simp [containsChars, List.isPrefixOf]
  | cons c cs ih =>
    rw [List.cons_append]
    show (List.isPrefixOf pat (c :: (cs ++ t)) || containsChars pat (cs ++ t)) = true
    rw [Bool.or_eq_true]
    rw [show containsChars pat (c :: cs) =
        (List.isPrefixOf pat (c :: cs) || containsChars pat cs) from rfl,
      Bool.or_eq_true] at h
    cases h with
    | inl hpre =>
      left
      have h1 : pat <+: (c :: cs) := by simpa using hpre
      have h2 : pat <+: (c :: cs) ++ t := h1.trans (List.prefix_append _ _)
      simpa using h2
    | inr hrec => right; exact ih hrec

/-- Dropping a literal prefix of an appended list yields the remainder. -/
theorem dropPre_append (p r : List Char) : dropPre p (p ++ r) = some r := by
  induction p with
  | nil => rfl
  | cons a as ih => simp [dropPre, ih]

/-- The classifier rejects the ProgramData icon path for every drive
letter: `ProgramData` is on the deny-list and the deny scan is a
substring test over the whole lower-cased path. -/
theorem is_safe_icoDest (letter : Char) (isDir : Bool) :
    is_safe_to_hide (icoDestPath letter) isDir = false := by
  have hdata : (lowerStr (icoDestPath letter)).data =
      "C:\\ProgramData\\DriveIcons\\drive_".data.map lowerChar ++
        ([letter] ++ ".ico".data).map lowerChar := by
    show ((icoDestPath letter).data.map lowerChar) = _
    rw [show (icoDestPath letter).data =
        "C:\\ProgramData\\DriveIcons\\drive_".data ++ ([letter] ++ ".ico".data) from rfl]
    rw [List.map_append]
  have hcontains : containsStr (lowerStr "ProgramData") (lowerStr (icoDestPath letter)) = true := by
    show containsChars (lowerStr "ProgramData").data (lowerStr (icoDestPath letter)).data = true
    rw [hdata]
    apply containsChars_append_right
    decide
  have hany : SYSTEM_FILES.any (fun sf =>
      containsStr (lowerStr sf) (lowerStr (pyBasename (icoDestPath letter))) ||
      containsStr (lowerStr sf) (lowerStr (icoDestPath letter))) = true :=
    List.any_eq_true.mpr ⟨"ProgramData", by decide,
      by rw [Bool.or_eq_true]; exact Or.inr hcontains⟩
  unfold is_safe_to_hide
  simp [hany]

/-- The timestamped root icon name always matches the cleanup glob of
drive_icon_setter.py. -/
theorem globDriveIcoS_icoLocalName (ts : Nat) : globDriveIcoS (icoLocalName ts) = true := by
  unfold globDriveIcoS
  rw [show (icoLocalName ts).data =
      "drive_icon_".data ++ ((Nat.repr ts).data ++ ".ico".data) from
    by rw [show (icoLocalName ts).data =
        ("drive_icon_".data ++ (Nat.repr ts).data) ++ ".ico".data from rfl,
      List.append_assoc]]
  rw [dropPre_append]
  have hsuf : List.isSuffixOf ".ico".data ((Nat.repr ts).data ++ ".ico".data) = true := by
    simp [List.suffix_append]
  simp [hsuf]

/-- A non-decreasing chain stays non-decreasing when a block of copies
of a smaller value is prepended. -/
theorem chainRepCons (x y : Nat) (l : List Nat) (hxy : x ≤ y)
    (hl : List.Chain' (· ≤ ·) (y :: l)) :
    ∀ d : Nat, List.Chain' (· ≤ ·) (x :: (List.replicate d x ++ y :: l)) := by
  intro d
  induction d with
  | zero => simpa using List.chain'_cons.mpr ⟨hxy, hl⟩
  | succ n ih =>
    rw [List.replicate_succ, List.cons_append]
    exact List.chain'_cons.mpr ⟨le_refl x, ih⟩

/-! ### Claim C1 -/

/-- C1 counterexample: `is_safe_to_hide` answers `true` for the file
name `x.directory.png`, which is not on the `ICON_FILES` allow-list —
the `.png` clause of the classifier accepts any `.png` name containing
an allow-list entry as a substring, so the classifier is not
true-only-for-allow-listed-names as the claim states. -/
theorem C1_counterexample :
    is_safe_to_hide "D:\\x.directory.png" false = true ∧
    "x.directory.png" ∉ ICON_FILES.map lowerStr ∧
    "x.directory.png" ∉ ICON_FILES := by
  refine ⟨by decide, by decide, by decide⟩

/-- C1 (amended): deny-listed paths and their children are always
classified unsafe, and every name on the allow-list is classified safe
at a plain volume root; but the converse safety direction is weaker
than claimed: `is_safe_to_hide` can answer `true` not only for
allow-list names (or an allow-list name with a leading dot prepended)
but also for any `.png` file name containing an allow-list entry as a
substring. -/
theorem C1_classifier :
    (∀ (filepath : String) (isDir : Bool),
      (denyFullPath filepath = true → is_safe_to_hide filepath isDir = false) ∧
      (is_safe_to_hide filepath isDir = true →
        allowRecognized (lowerStr (pyBasename filepath)) = true)) ∧
    (is_safe_to_hide "D:\\desktop.ini" false = true ∧
     is_safe_to_hide "D:\\autorun.inf" false = true ∧
     is_safe_to_hide "D:\\.directory" false = true ∧
     is_safe_to_hide "D:\\.VolumeIcon.icns" false = true ∧
     is_safe_to_hide "D:\\.DS_Store" false = true ∧
     is_safe_to_hide "D:\\.fseventsd" true = true ∧
     is_safe_to_hide "D:\\.metadata_never_index" false = true ∧
     is_safe_to_hide "D:\\.icons" true = true) := by
  constructor
  · intro filepath isDir
    constructor
    · intro h
      have hc : SYSTEM_FILES.any (fun sf =>
          containsStr (lowerStr sf) (lowerStr (pyBasename filepath)) ||
          containsStr (lowerStr sf) (lowerStr filepath)) = true := by
        obtain ⟨sf, hmem, hsf⟩ := List.any_eq_true.mp h
        exact List.any_eq_true.mpr ⟨sf, hmem, by rw [Bool.or_eq_true]; exact Or.inr hsf⟩
      unfold is_safe_to_hide
      simp [hc]
    · intro h
      unfold is_safe_to_hide at h
      split at h
      · simp at h
      · split at h
        · simp at h
        · split at h
          · rename_i hc3
            obtain ⟨ic, hmem, hic⟩ := List.any_eq_true.mp hc3
            refine List.any_eq_true.mpr ⟨ic, hmem, ?_⟩
            rw [Bool.or_eq_true] at hic ⊢
            cases hic with
            | inl h1 => exact Or.inl h1
            | inr h2 => exact Or.inr (by rw [Bool.or_eq_true]; exact Or.inl h2)
          · split at h
            · rename_i hc4
              obtain ⟨ic, hmem, hic⟩ := List.any_eq_true.mp hc4
              refine List.any_eq_true.mpr ⟨ic, hmem, ?_⟩
              rw [Bool.or_eq_true]
              exact Or.inr (by rw [Bool.or_eq_true]; exact Or.inr hic)
            · simp at h
  · refine ⟨by decide, by decide, by decide, by decide, by decide, by decide, by decide, by decide⟩

/-- C1 witness: the amended theorem applied to a child of the OS
install tree. -/
theorem C1_classifier_witness :
    is_safe_to_hide "C:\\Windows\\system32\\config" false = false :=
  (C1_classifier.1 "C:\\Windows\\system32\\config" false).1 (by decide)

/-! ### Claim C9 -/

/-- C9: every path under the ProgramData icon store is classified
unsafe (`ProgramData` is deny-listed and matching is a substring test
over the whole path), so the purge branch of `universal_icon_pipeline`
that would delete the existing ProgramData `.ico` never fires: the
stale asset survives every purge. -/
theorem C9_progdata_unreachable (letter : Char) (isDir : Bool) (p : Option String) :
    is_safe_to_hide (icoDestPath letter) isDir = false ∧
    purgeProgU letter p = p := by
  refine ⟨is_safe_icoDest letter isDir, ?_⟩
  simp [purgeProgU, is_safe_icoDest]

/-! ### Claim C6 -/

/-- C6: round-trip of the persistent icon store.  With both hives
accepting the accesses, `reg_set_icon` then `reg_get_icon` yields the
stored path, and `reg_remove_icon` then `reg_get_icon` yields none. -/
theorem C6_round_trip (st : RegState) (l : Char) (p lab : String)
    (hW1 : st.hklmWritable = true) (hW2 : st.hkcuWritable = true)
    (hR1 : st.hklmReadable = true) (hR2 : st.hkcuReadable = true) :
    ∃ st', reg_set_icon st l p lab = Except.ok st' ∧
      reg_get_icon st' l = some p ∧
      reg_get_icon (reg_remove_icon st' l) l = none := by
  refine ⟨writeHKCU (writeHKLM st l p lab) l p lab, ?_, ?_, ?_⟩
  · simp [reg_set_icon, writeHKLM, writeHKCU, hW1, hW2]
  · simp [reg_get_icon, writeHKLM, writeHKCU, updMap, hR1]
  · simp [reg_get_icon, reg_remove_icon, writeHKLM, writeHKCU, delMap, updMap,
      hW1, hW2, hR1, hR2]

/-- C6 witness: the round-trip at an empty registry, drive letter D and
the standard ProgramData asset path. -/
theorem C6_round_trip_witness :
    ∃ st', reg_set_icon regEmpty 'D' "C:\\ProgramData\\DriveIcons\\drive_D.ico" ""
        = Except.ok st' ∧
      reg_get_icon st' 'D' = some "C:\\ProgramData\\DriveIcons\\drive_D.ico" ∧
      reg_get_icon (reg_remove_icon st' 'D') 'D' = none :=
  C6_round_trip regEmpty 'D' "C:\\ProgramData\\DriveIcons\\drive_D.ico" "" rfl rfl rfl rfl

/-! ### Claim C10 -/

/-- C10: `reg_get_icon` consults the machine-wide hive first and
returns its value whenever that hive is readable and holds an entry —
in particular when both hives hold one — and it falls through to the
user-scoped read exactly when the machine-wide entry is absent or the
hive unreadable. -/
theorem C10_hklm_precedence (st : RegState) (l : Char) :
    (∀ vM : String, st.hklmReadable = true → st.hklmIcon l = some vM →
      reg_get_icon st l = some vM) ∧
    (st.hklmReadable = false ∨ st.hklmIcon l = none →
      reg_get_icon st l = (if st.hkcuReadable then st.hkcuIcon l else none)) := by
  constructor
  · intro vM hR hM
    unfold reg_get_icon
    simp [hR, hM]
  · intro h
    unfold reg_get_icon
    cases h with
    | inl h1 => simp [h1]
    | inr h2 => cases hR : st.hklmReadable <;> simp [hR, h2]

/-- C10 witness: with both hives populated, the machine-wide value is
the one returned. -/
theorem C10_hklm_precedence_witness :
    reg_get_icon regBoth 'D' = some "machine.ico" :=
  (C10_hklm_precedence regBoth 'D').1 "machine.ico" rfl rfl

/-! ### Claim C3 -/

/-- C3 counterexample: when only the user-scoped (HKCU) write fails,
`reg_set_icon` completes without raising; when only the machine-wide
(HKLM) write fails, it raises the PermissionError.  This is the
opposite of the claimed failure semantics. -/
theorem C3_counterexample :
    (reg_set_icon regHkcuFails 'D' "icon.ico" "").isOk = true ∧
    (reg_set_icon regHklmFails 'D' "icon.ico" "").isOk = false :=
  ⟨rfl, rfl⟩

/-- C3 (amended): in the dual-hive `reg_set_icon` the fatal
PermissionError is raised exactly when the machine-wide (HKLM) write
fails; a failure of only the user-scoped (HKCU) write is swallowed
silently and the call completes non-fatally. -/
theorem C3_hive_fatality (st : RegState) (l : Char) (ico lab : String) :
    (reg_set_icon st l ico lab).isOk = st.hklmWritable := by
  unfold reg_set_icon
  cases hW : st.hklmWritable
  · rfl
  · cases hW2 : (writeHKLM st l ico lab).hkcuWritable <;> rfl

/-! ### Claim C4 -/

/-- C4 counterexample: an Apply run of the universal pipeline on a
fixed, non-system volume (`GetDriveTypeW = DRIVE_FIXED`) with
`ejectAfterApply = true` does invoke `safe_eject` — the pipeline's only
guard is `not is_system_drive(drive)`, so the claimed rejection of
eject on fixed volumes does not happen. -/
theorem C4_counterexample :
    (universal_apply ust0 "D:\\" 'D' "" DRIVE_FIXED true true false true "img").2.1 = true :=
  rfl

/-- C4 (amended): the universal pipeline invokes the eject exactly when
the run succeeds, `do_eject` is set and the volume is not the system
drive — the drive type (fixed, removable, ...) is never consulted; and
the drive_icon_setter.py pipeline invokes it whenever `do_eject` is
set, with no drive check at all. -/
theorem C4_eject_guard (st : UState) (drive : String) (letter : Char) (label : String)
    (dtype : Nat) (hide de isSys ir : Bool) (src : String)
    (st2 : SState) (l2 : Char) (src2 label2 : String) (h2 de2 isSys2 : Bool) (ts : Nat) :
    (universal_apply st drive letter label dtype hide de isSys ir src).2.1
      = (ir && (de && !isSys)) ∧
    (apply_setter st2 l2 src2 label2 h2 de2 isSys2 ts).2.1 = de2 := by
  constructor
  · cases ir <;> rfl
  · rfl

/-! ### Claim C5 -/

/-- C5 counterexample: in drive_icon_setter.py's `safe_eject`, when the
device handle opens and the eject IOCTL fails, the primary mechanism
has failed but the PowerShell fallback is never attempted, and the call
returns `ok = false` with a non-empty detail even though the untried
fallback would have succeeded. -/
theorem C5_counterexample :
    primaryFails ejStuck = true ∧
    (safe_eject_setter ejStuck).attempts = [EjectMethod.native] ∧
    (safe_eject_setter ejStuck).ok = false ∧
    (safe_eject_setter ejStuck).detail ≠ "" ∧
    ejStuck.psExitZero = true := by
  refine ⟨rfl, rfl, rfl, by decide, rfl⟩

/-- C5 (amended): the Windows.py `safe_eject` does attempt the
PowerShell fallback whenever the primary native mechanism fails, and
returns `ok = false` only when every method has failed; in the
drive_icon_setter.py variant the fallback is attempted only when the
device handle cannot be opened — once the handle opens, a failed eject
IOCTL returns `ok = false` with no fallback attempt. -/
theorem C5_eject_fallback (e : EjectEnv) :
    (primaryFails e = true → EjectMethod.powershell ∈ (safe_eject_win e).attempts) ∧
    ((safe_eject_win e).ok = false → primaryFails e = true ∧ e.psExitZero = false) ∧
    (e.handleOpens = false → EjectMethod.powershell ∈ (safe_eject_setter e).attempts) ∧
    (e.handleOpens = true → e.ioctlEjectOk = false →
      (safe_eject_setter e).ok = false ∧
      (safe_eject_setter e).attempts = [EjectMethod.native]) := by
  obtain ⟨h, i, p, s, n⟩ := e
  cases h <;> cases i <;> cases p <;>
    simp [safe_eject_win, safe_eject_setter, primaryFails]

/-- C5 witness: the amended theorem at the stuck environment — the
Windows.py variant does reach the PowerShell fallback there. -/
theorem C5_eject_fallback_witness :
    EjectMethod.powershell ∈ (safe_eject_win ejStuck).attempts :=
  (C5_eject_fallback ejStuck).1 rfl

/-! ### Claim C2 -/

/-- C2 counterexample: an Apply run of the universal pipeline whose
source image is unreadable does report `ok = false`, but it is not
aborted before any mutation: a previously staged `.VolumeIcon.icns`
asset present at the volume root before the run has been deleted by
the old-asset purge, which runs before the image is first read. -/
theorem C2_counterexample :
    (universal_apply ustVol "D:\\" 'D' "" DRIVE_REMOVABLE true false false false "img").1
      = false ∧
    ustVol.rootFiles ".VolumeIcon.icns" = some "old" ∧
    (universal_apply ustVol "D:\\" 'D' "" DRIVE_REMOVABLE true false false false
      "img").2.2.rootFiles ".VolumeIcon.icns" = none := by
  refine ⟨rfl, rfl, by decide⟩

/-- C2 (amended): on an unreadable source image the universal pipeline
reports `ok = false`, never reaches the eject, and leaves the registry
entries and the ProgramData asset unchanged; but before the image is
read it has already purged every classifier-approved old `.VolumeIcon*`
asset from the volume root and created the `.icons` folder. -/
theorem C2_fatal_input (st : UState) (drive : String) (letter : Char) (label : String)
    (dtype : Nat) (hide de isSys : Bool) (src : String) :
    (universal_apply st drive letter label dtype hide de isSys false src).1 = false ∧
    (universal_apply st drive letter label dtype hide de isSys false src).2.1 = false ∧
    (universal_apply st drive letter label dtype hide de isSys false src).2.2.hklmIcon
      = st.hklmIcon ∧
    (universal_apply st drive letter label dtype hide de isSys false src).2.2.hklmLabel
      = st.hklmLabel ∧
    (universal_apply st drive letter label dtype hide de isSys false src).2.2.hkcuIcon
      = st.hkcuIcon ∧
    (universal_apply st drive letter label dtype hide de isSys false src).2.2.hkcuLabel
      = st.hkcuLabel ∧
    (universal_apply st drive letter label dtype hide de isSys false src).2.2.prog
      = st.prog ∧
    (universal_apply st drive letter label dtype hide de isSys false src).2.2.iconsDirExists
      = true ∧
    (∀ fname : String, globVolIconU fname = true →
      is_safe_to_hide (drive ++ fname) false = true →
      (universal_apply st drive letter label dtype hide de isSys false src).2.2.rootFiles fname
        = none) := by
  refine ⟨rfl, rfl, rfl, rfl, rfl, rfl, ?_, rfl, ?_⟩
  · show purgeProgU letter st.prog = st.prog
    simp [purgeProgU, is_safe_icoDest]
  · intro fname h1 h2
    show purgeRootU drive st.rootFiles fname = none
    simp [purgeRootU, h1, h2]

/-- C2 witness: the amended theorem applied at a state holding a staged
`.VolumeIcon.icns`, with the two classifier hypotheses discharged. -/
theorem C2_fatal_input_witness :
    (universal_apply ustVol "E:\\" 'E' "" DRIVE_REMOVABLE true false false false
      "img").2.2.rootFiles ".VolumeIcon.icns" = none :=
  (C2_fatal_input ustVol "E:\\" 'E' "" DRIVE_REMOVABLE true false false
    "img").2.2.2.2.2.2.2.2 ".VolumeIcon.icns" (by decide) (by decide)

/-! ### Claim C7 -/

/-- C7 counterexample: two consecutive Apply runs of the
drive_icon_setter.py pipeline with identical arguments, observing
timestamps 0 and then 1, do not leave the state of a single run: the
single run leaves the root icon `drive_icon_0.ico`, the double run has
deleted it and leaves `drive_icon_1.ico` instead (and the two
`autorun.inf` contents name different icon files). -/
theorem C7_counterexample :
    (apply_setter sst0 'D' "img" "" true false false 0).2.2.rootFiles "drive_icon_0.ico"
      = some "img" ∧
    (apply_setter (apply_setter sst0 'D' "img" "" true false false 0).2.2
      'D' "img" "" true false false 1).2.2.rootFiles "drive_icon_0.ico" = none ∧
    (apply_setter (apply_setter sst0 'D' "img" "" true false false 0).2.2
      'D' "img" "" true false false 1).2.2.rootFiles "drive_icon_1.ico" = some "img" ∧
    (apply_setter sst0 'D' "img" "" true false false 0).2.2.rootFiles "autorun.inf"
      = some "[autorun]\nicon=drive_icon_0.ico\n" ∧
    (apply_setter (apply_setter sst0 'D' "img" "" true false false 0).2.2
      'D' "img" "" true false false 1).2.2.rootFiles "autorun.inf"
      = some "[autorun]\nicon=drive_icon_1.ico\n" := by
  refine ⟨by decide, by decide, by decide, by decide, by decide⟩

/-- C7 (amended): Windows.py's `apply_icon_pipeline`, which writes only
fixed names and fixed contents, is idempotent on durable state exactly
as claimed — two consecutive identical runs leave the state of one run;
the drive_icon_setter.py pipeline is idempotent only up to the run
timestamp embedded in the root icon name and in `autorun.inf`: a second
identical run leaves exactly the durable state that a single run
observing the second run's timestamp would leave (so with equal
timestamps the two-run state equals the one-run state). -/
theorem C7_idempotence (stw : UState) (lw : Char) (labelw : String)
    (hw dw sw : Bool) (srcw : String)
    (st : SState) (letter : Char) (src label : String)
    (hide de isSys : Bool) (ts1 ts2 : Nat) :
    (apply_win (apply_win stw lw labelw hw dw sw srcw).2.2 lw labelw hw dw sw srcw
      = apply_win stw lw labelw hw dw sw srcw) ∧
    (apply_setter (apply_setter st letter src label hide de isSys ts1).2.2
        letter src label hide de isSys ts2
      = apply_setter st letter src label hide de isSys ts2) := by
  constructor
  · simp only [apply_win, Prod.mk.injEq, true_and]
    ext fname
    · rfl
    · by_cases h1 : fname = "autorun.inf"
      · simp [updFile, h1]
      · by_cases h2 : fname = "desktop.ini"
        · simp [updFile, h1, h2]
        · by_cases h3 : globDriveIcoU fname = true
          · simp [updFile, purgeRootW, h1, h2, h3]
          · simp [updFile, purgeRootW, h1, h2, h3]
    · by_cases h : fname = "drive_icon.ico" <;> simp [updFile, h]
    · rfl
    · rfl
    · by_cases hl : stripWs labelw = "" <;> simp [hl]
    · rfl
    · by_cases hl : stripWs labelw = "" <;> simp [hl]
  · cases isSys with
    | true =>
      by_cases hl : stripWs label = "" <;>
        simp [apply_setter, hl, SState.mk.injEq]
    | false =>
      simp only [apply_setter, Bool.false_eq_true, if_false, Prod.mk.injEq, true_and]
      ext fname
      · by_cases hl : stripWs label = "" <;> simp [hl]
      · by_cases h1 : fname = "autorun.inf"
        · simp [updFile, h1]
        · by_cases h2 : fname = icoLocalName ts2
          · simp [updFile, h1, h2]
          · by_cases h3 : globDriveIcoS fname = true
            · simp [updFile, purgeRootS, h1, h2, h3]
            · have h4 : fname ≠ icoLocalName ts1 := by
                intro he
                rw [he] at h3
                exact h3 (globDriveIcoS_icoLocalName ts1)
              simp [updFile, purgeRootS, h1, h2, h3, h4]
      · rfl
      · by_cases hl : stripWs label = "" <;> simp [hl]

/-! ### Claim C8 -/

/-- C8 counterexample: the step numbers the universal pipeline emits do
not strictly increase — already the second and third messages both
carry step number 2 (the pipeline logs twice inside step 2), so the
emitted sequence is not a strictly increasing chain. -/
theorem C8_counterexample :
    ¬ List.Chain' (· < ·) (universalSteps 0 0 0 0 0) := by
  intro h
  rw [show universalSteps 0 0 0 0 0
      = [1, 2, 2, 3, 3, 4, 5, 6, 7, 8, 9, 10, 11, 12, 13, 14, 14] from rfl] at h
  simp [List.chain'_cons] at h

/-- C8 (amended): for any number of nested callback messages, the step
numbers emitted during a successful universal-pipeline Apply run are
non-decreasing, following the fourteen pipeline phases in order; they
are not strictly increasing because several phases emit more than one
message with the same number. -/
theorem C8_steps_monotone (k a b c d : Nat) :
    List.Chain' (· ≤ ·) (universalSteps k a b c d) := by
  have h14 : List.Chain' (· ≤ ·) (12 :: [13, 14, 14]) := by
    simp [List.chain'_cons]
  have h11 := chainRepCons 11 12 [13, 14, 14] (by norm_num) h14 d
  have h10 := chainRepCons 10 11 _ (by norm_num) h11 c
  have h9 := chainRepCons 9 10 _ (by norm_num) h10 b
  have h8 := chainRepCons 8 9 _ (by norm_num) h9 a
  have h7 : List.Chain' (· ≤ ·) (7 :: 8 :: (List.replicate a 8 ++
      9 :: (List.replicate b 9 ++ 10 :: (List.replicate c 10 ++
        11 :: (List.replicate d 11 ++ [12, 13, 14, 14]))))) :=
    List.chain'_cons.mpr ⟨by norm_num, h8⟩
  have h6 : List.Chain' (· ≤ ·) (6 :: 7 :: 8 :: (List.replicate a 8 ++
      9 :: (List.replicate b 9 ++ 10 :: (List.replicate c 10 ++
        11 :: (List.replicate d 11 ++ [12, 13, 14, 14]))))) :=
    List.chain'_cons.mpr ⟨by norm_num, h7⟩
  have h5 := chainRepCons 5 6 _ (by norm_num) h6 k
  unfold universalSteps
  exact List.chain'_cons.mpr ⟨by norm_num,
    List.chain'_cons.mpr ⟨le_refl 2,
      List.chain'_cons.mpr ⟨by norm_num,
        List.chain'_cons.mpr ⟨le_refl 3,
          List.chain'_cons.mpr ⟨by norm_num,
            List.chain'_cons.mpr ⟨by norm_num, h5⟩⟩⟩⟩⟩⟩

end DriveIcon
